import Mathlib

/-!
# Verification of the Local Food Wastage Management app (`app.py`)

A shallow embedding of the application's data model, CRUD operations and
analytical query catalog, together with theorems settling the specified
properties.

The database (`food_wastage.db`, SQLite) holds four tables; we model each
row type as a structure and each table as a list of rows.  SQL semantics
relevant here:
* `SUM(col)` over zero rows is `NULL` — modelled as `Option`;
* `COUNT(DISTINCT col)` ignores `NULL`s;
* `UPDATE`/`DELETE` with a non-matching `WHERE` succeed, affecting 0 rows;
* `INSERT` into `food_listings` without `food_id` assigns a fresh id
  (integer primary key: one more than the current maximum);
* `ROUND(x, 2)` rounds half away from zero to 2 decimals;
* `ORDER BY c DESC LIMIT 1` takes the head of a descending stable sort.
-/

namespace FoodApp

/-- Row of the `providers` table. -/
structure Provider where
  provider_id : Int
  name : String
  provider_type : String
  city : String
  contact : String
deriving Repr, DecidableEq

/-- Row of the `receivers` table. -/
structure Receiver where
  receiver_id : Int
  name : String
  city : String
deriving Repr, DecidableEq

/-- Row of the `food_listings` table. -/
structure FoodListing where
  food_id : Int
  food_name : String
  quantity : Int
  expiry_date : String
  provider_id : Int
  provider_type : String
  location : String
  food_type : String
  meal_type : String
deriving Repr, DecidableEq

/-- Row of the `claims` table. -/
structure Claim where
  claim_id : Int
  food_id : Int
  receiver_id : Int
  status : String
deriving Repr, DecidableEq

/-- The whole database state (`food_wastage.db`). -/
structure Database where
  providers : List Provider
  receivers : List Receiver
  food_listings : List FoodListing
  claims : List Claim
deriving Repr, DecidableEq

/-- The fresh `food_id` SQLite assigns on INSERT into `food_listings`
(an INTEGER PRIMARY KEY gets max existing id + 1). -/
def nextFoodId (db : Database) : Int :=
  (db.food_listings.map (·.food_id)).foldr max 0 + 1

/-- `add_food_listing` (app.py:139-145): INSERT one row with the eight
supplied fields; `food_id` is assigned by the engine. -/
def add_food_listing (db : Database) (food_name : String) (quantity : Int)
    (expiry_date : String) (provider_id : Int) (provider_type : String)
    (location : String) (food_type : String) (meal_type : String) : Database :=
  { db with food_listings := db.food_listings ++
      [{ food_id := nextFoodId db, food_name := food_name, quantity := quantity,
         expiry_date := expiry_date, provider_id := provider_id,
         provider_type := provider_type, location := location,
         food_type := food_type, meal_type := meal_type }] }

/-- `update_food_listing_quantity` (app.py:147-149):
`UPDATE food_listings SET quantity = ? WHERE food_id = ?`. -/
def update_food_listing_quantity (db : Database) (food_id : Int) (quantity : Int) :
    Database :=
  { db with food_listings := db.food_listings.map fun r =>
      if r.food_id = food_id then { r with quantity := quantity } else r }

/-- `delete_food_listing` (app.py:151-153):
`DELETE FROM food_listings WHERE food_id = ?`. -/
def delete_food_listing (db : Database) (food_id : Int) : Database :=
  { db with food_listings := db.food_listings.filter fun r => r.food_id ≠ food_id }

/-- Rows affected by the UPDATE statement (what SQLite `changes()` would
report): the number of `food_listings` rows matching the WHERE clause. -/
def updateAffectedRows (db : Database) (food_id : Int) : Nat :=
  (db.food_listings.filter fun r => r.food_id = food_id).length

/-- Rows affected by the DELETE statement. -/
def deleteAffectedRows (db : Database) (food_id : Int) : Nat :=
  (db.food_listings.filter fun r => r.food_id = food_id).length

/-- The user-visible signal after the "Update Food Listing" action
(app.py:185-191): `st.success` is called unconditionally, regardless of the
database state or of how many rows were affected. -/
def updateSuccessMessage (db : Database) (food_id quantity : Int) : String :=
  "Food listing quantity updated successfully!"

/-- The user-visible signal after the "Delete Food Listing" action
(app.py:193-198): likewise unconditional. -/
def deleteSuccessMessage (db : Database) (food_id : Int) : String :=
  "Food listing deleted successfully!"

/-- Catalog query "Total quantity of food available" (app.py:48-51):
`SELECT SUM(quantity) FROM food_listings`.  SQL `SUM` over an empty table
is `NULL`, hence the `Option`. -/
def totalQuantityAvailable (db : Database) : Option Int :=
  if db.food_listings.isEmpty then none
  else some (db.food_listings.map (·.quantity)).sum

/-- The empty database. -/
def emptyDb : Database := ⟨[], [], [], []⟩

/-- A sample food listing used as concrete test data. -/
def sampleListing : FoodListing :=
  { food_id := 1, food_name := "Rice", quantity := 10, expiry_date := "2025-01-01",
    provider_id := 1, provider_type := "Restaurant", location := "Downtown",
    food_type := "Vegetarian", meal_type := "Lunch" }

/-- A sample database with a single food listing. -/
def sampleDb : Database := ⟨[], [], [sampleListing], []⟩

/-- The semantics of `ORDER BY agg DESC LIMIT 1` over a list of grouped
rows paired with their aggregate: stable descending sort, then first row. -/
def topOne {α β : Type _} [LinearOrder β] (l : List (α × β)) : List (α × β) :=
  (l.mergeSort fun a b => decide (b.2 ≤ a.2)).take 1

/-- Catalog query "Provider type contributing most food" (app.py:25-31),
before `LIMIT 1`: `SELECT provider_type, SUM(quantity) FROM food_listings
GROUP BY provider_type`. -/
def providerTypeTotals (db : Database) : List (String × Int) :=
  (db.food_listings.map (·.provider_type)).dedup.map fun t =>
    (t, ((db.food_listings.filter fun r => r.provider_type = t).map (·.quantity)).sum)

/-- Catalog query "Provider type contributing most food": descending order
by total quantity, `LIMIT 1`. -/
def providerTypeMostFood (db : Database) : List (String × Int) :=
  topOne (providerTypeTotals db)

/-- Catalog query "City with highest number of food listings"
(app.py:53-59), before `LIMIT 1`: `SELECT location, COUNT(food_id) FROM
food_listings GROUP BY location`. -/
def cityListingCounts (db : Database) : List (String × Nat) :=
  (db.food_listings.map (·.location)).dedup.map fun c =>
    (c, (db.food_listings.filter fun r => r.location = c).length)

/-- Catalog query "City with highest number of food listings": descending
order by listing count, `LIMIT 1`. -/
def cityMostListings (db : Database) : List (String × Nat) :=
  topOne (cityListingCounts db)

/-- Join underlying "Provider with highest number of successful food
claims" (app.py:75-83): claims with status 'Completed', joined to
`food_listings` on food_id and to `providers` on provider_id, projected to
the provider name (one occurrence per joined row). -/
def completedClaimProviderNames (db : Database) : List String :=
  (db.claims.filter fun c => c.status = "Completed").flatMap fun c =>
    (db.food_listings.filter fun f => f.food_id = c.food_id).flatMap fun f =>
      (db.providers.filter fun p => p.provider_id = f.provider_id).map (·.name)

/-- Grouping for "Provider with highest number of successful food claims":
`GROUP BY p.name`, `COUNT(c.claim_id)` counts the joined rows per name. -/
def providerCompletedCounts (db : Database) : List (String × Nat) :=
  (completedClaimProviderNames db).dedup.map fun n =>
    (n, (completedClaimProviderNames db).count n)

/-- Catalog query "Provider with highest number of successful food claims":
descending order by completed-claim count, `LIMIT 1`. -/
def providerMostCompletedClaims (db : Database) : List (String × Nat) :=
  topOne (providerCompletedCounts db)

/-- Join underlying "Most claimed meal type" (app.py:102-109): claims
joined to `food_listings` on food_id, projected to the meal type. -/
def claimedMealTypes (db : Database) : List String :=
  db.claims.flatMap fun c =>
    (db.food_listings.filter fun f => f.food_id = c.food_id).map (·.meal_type)

/-- Grouping for "Most claimed meal type": `GROUP BY meal_type`,
`COUNT(c.claim_id)` counts the joined rows per meal type. -/
def mealTypeClaimCounts (db : Database) : List (String × Nat) :=
  (claimedMealTypes db).dedup.map fun m =>
    (m, (claimedMealTypes db).count m)

/-- Catalog query "Most claimed meal type": descending order by claim
count, `LIMIT 1`. -/
def mostClaimedMealType (db : Database) : List (String × Nat) :=
  topOne (mealTypeClaimCounts db)

/-- Result row of "Most commonly available food types": the query returns
exactly the columns `food_type` and `count`. -/
structure FoodTypeCountRow where
  food_type : String
  count : Nat
deriving Repr, DecidableEq

/-- Grouping for "Most commonly available food types": `GROUP BY
food_type`, `COUNT(food_id)` counts the rows per food type. -/
def foodTypeCountRows (db : Database) : List FoodTypeCountRow :=
  (db.food_listings.map (·.food_type)).dedup.map fun t =>
    FoodTypeCountRow.mk t ((db.food_listings.map (·.food_type)).count t)

/-- Catalog query "Most commonly available food types" (app.py:61-66):
`SELECT food_type, COUNT(food_id) FROM food_listings GROUP BY food_type
ORDER BY count DESC` (no limit). -/
def mostCommonFoodTypes (db : Database) : List FoodTypeCountRow :=
  (foodTypeCountRows db).mergeSort fun a b => decide (b.count ≤ a.count)

/-- Combined sub-select of "Providers & Receivers per City" (app.py:13-23):
`SELECT city, provider_id, NULL AS receiver_id FROM providers UNION ALL
SELECT city, NULL, receiver_id FROM receivers`. -/
def combinedCityRows (db : Database) : List (String × Option Int × Option Int) :=
  db.providers.map (fun p => (p.city, some p.provider_id, none)) ++
    db.receivers.map (fun r => (r.city, none, some r.receiver_id))

/-- SQL `COUNT(DISTINCT col)`: distinct non-NULL values. -/
def countDistinct (l : List (Option Int)) : Nat :=
  (l.filterMap id).dedup.length

/-- Catalog query "Providers & Receivers per City": group the combined
rows by city, count distinct non-NULL provider_ids and receiver_ids. -/
def providersReceiversPerCity (db : Database) : List (String × Nat × Nat) :=
  ((combinedCityRows db).map (·.1)).dedup.map fun c =>
    let rows := (combinedCityRows db).filter fun x => x.1 = c
    (c, countDistinct (rows.map (·.2.1)), countDistinct (rows.map (·.2.2)))

/-- Catalog query "Contact info of providers in a specific city "
(app.py:33-37): `SELECT name, contact FROM providers WHERE city =
'Mooreview'`.  The city is a fixed constant; the query takes no
parameter and reads only the `providers` table. -/
def contactInfoProvidersSpecificCity (db : Database) : List (String × String) :=
  (db.providers.filter fun p => p.city = "Mooreview").map fun p =>
    (p.name, p.contact)

/-- The 13 labels of the `QUERIES` dictionary (app.py:11-118), exactly as
written, including the trailing space of the contact-info label. -/
def QUERIES_labels : List String :=
  ["Providers & Receivers per City",
   "Provider type contributing most food",
   "Contact info of providers in a specific city ",
   "Receivers with most food claims",
   "Total quantity of food available",
   "City with highest number of food listings",
   "Most commonly available food types",
   "Number of claims made for each food item",
   "Provider with highest number of successful food claims",
   "Percentage of food claims completed vs pending vs canceled",
   "Average quantity of food claimed per receiver",
   "Most claimed meal type",
   "Total quantity of food donated by each provider"]

/-- Database state after `run_query` (app.py:125-129) executes the catalog
SQL of a label: every one of the 13 catalog entries is a single SELECT
statement, which reads rows and never writes, so the post-state is the
pre-state in each branch (and an unknown label executes nothing). -/
def runQueryPost (label : String) (db : Database) : Database :=
  match label with
  | "Providers & Receivers per City" => db
  | "Provider type contributing most food" => db
  | "Contact info of providers in a specific city " => db
  | "Receivers with most food claims" => db
  | "Total quantity of food available" => db
  | "City with highest number of food listings" => db
  | "Most commonly available food types" => db
  | "Number of claims made for each food item" => db
  | "Provider with highest number of successful food claims" => db
  | "Percentage of food claims completed vs pending vs canceled" => db
  | "Average quantity of food claimed per receiver" => db
  | "Most claimed meal type" => db
  | "Total quantity of food donated by each provider" => db
  | _ => db

/-- A richer sample database: one provider, one receiver, one listing and
one completed claim, all linked. -/
def richDb : Database :=
  ⟨[{ provider_id := 1, name := "Alice", provider_type := "Restaurant",
      city := "Mooreview", contact := "123-456" }],
   [{ receiver_id := 1, name := "Bob", city := "Springfield" }],
   [sampleListing],
   [{ claim_id := 1, food_id := 1, receiver_id := 1, status := "Completed" }]⟩

/-- Generic correctness of `topOne` on a non-empty group list: it returns
exactly one of the grouped rows, and that row's aggregate is greatest. -/
theorem topOne_spec {α β : Type _} [LinearOrder β] (l : List (α × β))
    (hl : l ≠ []) :
    ∃ x, topOne l = [x] ∧ x ∈ l ∧ ∀ y ∈ l, y.2 ≤ x.2 := by
  have hperm := List.mergeSort_perm l (fun a b => decide (b.2 ≤ a.2))
  have hsorted := @List.sorted_mergeSort (α × β)
    (fun a b => decide (b.2 ≤ a.2))
    (fun a b c hab hbc => by
      simp only [decide_eq_true_eq] at *
      exact le_trans hbc hab)
    (fun a b => by
      rcases le_total a.2 b.2 with h | h <;> simp [h])
    l
  cases hs : l.mergeSort (fun a b => decide (b.2 ≤ a.2)) with
  | nil =>
    rw [hs] at hperm
    exact absurd hperm.symm.eq_nil hl
  | cons x t =>
    refine ⟨x, by simp [topOne, hs], ?_, ?_⟩
    · exact hperm.mem_iff.mp (by rw [hs]; exact List.mem_cons_self x t)
    · intro y hy
      have hy' : y ∈ x :: t := by rw [← hs]; exact hperm.mem_iff.mpr hy
      rcases List.mem_cons.mp hy' with rfl | hyt
      · exact le_refl _
      · rw [hs] at hsorted
        have := (List.pairwise_cons.mp hsorted).1 y hyt
        simpa using this

end FoodApp

namespace FoodApp

/-- C1 counterexample: on the empty database the "Total quantity of food
available" query returns NULL (`none`), not a number, so the total after
inserting a listing with quantity 5 is not "exactly 5 greater than the total
returned before the insert": there is no integer `t` that the query returned
before. -/
theorem C1_counterexample :
    ¬ ∃ t : Int,
        totalQuantityAvailable emptyDb = some t ∧
        totalQuantityAvailable
          (add_food_listing emptyDb "Rice" 5 "2025-01-01" 1 "Restaurant"
            "Downtown" "Vegetarian" "Lunch") = some (t + 5) := by
  rintro ⟨t, h1, _⟩
  simp [totalQuantityAvailable, emptyDb] at h1

/-- C1 amended: reading the NULL total of an empty table as 0, inserting a
food listing with quantity 5 via the add operation increases the value of
"Total quantity of food available" by exactly 5, for every database state
and every choice of the other fields. -/
theorem C1_add_then_total (db : Database) (fn ed pt loc ft mt : String)
    (pid : Int) :
    (totalQuantityAvailable (add_food_listing db fn 5 ed pid pt loc ft mt)).getD 0
      = (totalQuantityAvailable db).getD 0 + 5 := by
  unfold totalQuantityAvailable add_food_listing
  cases h : db.food_listings with
  | nil => simp [h]
  | cons a l =>
    simp [h]
    ring

/-- C2: for every database state, every food_id `X` present in
`food_listings` and every value `q`, running `update_food_listing_quantity`
twice with `(X, q)` yields exactly the state of running it once, every row
with food_id `X` then stores quantity `q`, and the user-visible success
signal is the same both times. -/
theorem C2_update_idempotent (db : Database) (X q : Int)
    (h : X ∈ db.food_listings.map (·.food_id)) :
    update_food_listing_quantity (update_food_listing_quantity db X q) X q
        = update_food_listing_quantity db X q ∧
    (∀ r ∈ (update_food_listing_quantity db X q).food_listings,
        r.food_id = X → r.quantity = q) ∧
    updateSuccessMessage (update_food_listing_quantity db X q) X q
        = updateSuccessMessage db X q := by
  refine ⟨?_, ?_, rfl⟩
  · unfold update_food_listing_quantity
    simp only [List.map_map]
    congr 1
    apply List.map_congr_left
    intro r _
    by_cases hr : r.food_id = X
    · simp [Function.comp, hr]
    · simp [Function.comp, hr]
  · intro r hr hid
    unfold update_food_listing_quantity at hr
    simp only [List.mem_map] at hr
    obtain ⟨s, _, rfl⟩ := hr
    by_cases hs : s.food_id = X
    · simp [hs]
    · exact absurd (by simpa [hs] using hid) hs

/-- C2 witness: the idempotence theorem applied to the sample database at
food_id 1 and quantity 7. -/
theorem C2_update_idempotent_witness :
    (1 : Int) ∈ (sampleDb.food_listings.map (·.food_id)) ∧
    (update_food_listing_quantity (update_food_listing_quantity sampleDb 1 7) 1 7
        = update_food_listing_quantity sampleDb 1 7 ∧
      (∀ r ∈ (update_food_listing_quantity sampleDb 1 7).food_listings,
          r.food_id = 1 → r.quantity = 7) ∧
      updateSuccessMessage (update_food_listing_quantity sampleDb 1 7) 1 7
          = updateSuccessMessage sampleDb 1 7) :=
  ⟨by decide, C2_update_idempotent sampleDb 1 7 (by decide)⟩

/-- C3: for every database state and every `food_id` not present in
`food_listings`, both `update_food_listing_quantity` and
`delete_food_listing` succeed (they are total operations raising no error),
affect zero rows, and leave the entire database state unchanged. -/
theorem C3_absent_id_silent_noop (db : Database) (fid q : Int)
    (h : fid ∉ db.food_listings.map (·.food_id)) :
    updateAffectedRows db fid = 0 ∧
    deleteAffectedRows db fid = 0 ∧
    update_food_listing_quantity db fid q = db ∧
    delete_food_listing db fid = db := by
  have habs : ∀ r ∈ db.food_listings, ¬ (r.food_id = fid) := by
    intro r hr heq
    exact h (List.mem_map.mpr ⟨r, hr, heq⟩)
  have hfil : (db.food_listings.filter fun r => r.food_id = fid) = [] := by
    simp only [List.filter_eq_nil_iff, decide_eq_true_eq]
    exact habs
  refine ⟨?_, ?_, ?_, ?_⟩
  · simp [updateAffectedRows, hfil]
  · simp [deleteAffectedRows, hfil]
  · unfold update_food_listing_quantity
    have : db.food_listings.map (fun r =>
        if r.food_id = fid then { r with quantity := q } else r)
        = db.food_listings.map id := by
      apply List.map_congr_left
      intro r hr
      simp [habs r hr]
    rw [this, List.map_id]
  · unfold delete_food_listing
    have : (db.food_listings.filter fun r => r.food_id ≠ fid) = db.food_listings := by
      rw [List.filter_eq_self]
      intro r hr
      simpa using habs r hr
    rw [this]

/-- C3 witness: the silent-no-op theorem applied to the sample database at
the absent food_id 2. -/
theorem C3_absent_id_silent_noop_witness :
    (2 : Int) ∉ (sampleDb.food_listings.map (·.food_id)) ∧
    (updateAffectedRows sampleDb 2 = 0 ∧
      deleteAffectedRows sampleDb 2 = 0 ∧
      update_food_listing_quantity sampleDb 2 9 = sampleDb ∧
      delete_food_listing sampleDb 2 = sampleDb) :=
  ⟨by decide, C3_absent_id_silent_noop sampleDb 2 9 (by decide)⟩

/-- C4 counterexample: deleting food_id 1 from the sample database and then
updating food_id 1 indeed leaves the row absent, but the user-visible
signal of that no-op update is exactly the success message of an effective
update: the no-op is NOT distinguishable from a successful update, refuting
the claim's reporting requirement. -/
theorem C4_counterexample :
    (1 : Int) ∉ ((update_food_listing_quantity
        (delete_food_listing sampleDb 1) 1 7).food_listings.map (·.food_id)) ∧
    updateSuccessMessage (delete_food_listing sampleDb 1) 1 7
      = updateSuccessMessage sampleDb 1 7 :=
  ⟨by decide, rfl⟩

/-- C4 amended: for every database state and food_id `X`, deleting `X` and
then attempting to update `X` does not recreate the row (`X` remains absent
from `food_listings`), but the update is a silent no-op: its user-visible
success signal is identical to the one produced by an effective update. -/
theorem C4_delete_then_update (db : Database) (X q : Int) :
    X ∉ ((update_food_listing_quantity
        (delete_food_listing db X) X q).food_listings.map (·.food_id)) ∧
    updateSuccessMessage (delete_food_listing db X) X q
      = updateSuccessMessage db X q := by
  refine ⟨?_, rfl⟩
  intro hmem
  rw [List.mem_map] at hmem
  obtain ⟨r, hr, hid⟩ := hmem
  have hr' : r ∈ (db.food_listings.filter fun s => s.food_id ≠ X).map
      fun s => if s.food_id = X then { s with quantity := q } else s := hr
  rw [List.mem_map] at hr'
  obtain ⟨s, hs, rfl⟩ := hr'
  rw [List.mem_filter] at hs
  have hsx : ¬ s.food_id = X := by simpa using hs.2
  exact hsx (by simpa [hsx] using hid)

/-- C9: for every database state, food_id `X` present in `food_listings`
and value `q`, `update_food_listing_quantity` changes only the `quantity`
field of the rows with food_id `X`: all other fields of those rows, every
other row of `food_listings` (in place), and the `providers`, `receivers`
and `claims` tables are unchanged. -/
theorem C9_update_frame (db : Database) (X q : Int)
    (h : X ∈ db.food_listings.map (·.food_id)) :
    (update_food_listing_quantity db X q).providers = db.providers ∧
    (update_food_listing_quantity db X q).receivers = db.receivers ∧
    (update_food_listing_quantity db X q).claims = db.claims ∧
    List.Forall₂ (fun r r' =>
        (r.food_id ≠ X → r' = r) ∧
        (r.food_id = X → r'.food_id = r.food_id ∧ r'.quantity = q ∧
          r'.food_name = r.food_name ∧ r'.expiry_date = r.expiry_date ∧
          r'.provider_id = r.provider_id ∧ r'.provider_type = r.provider_type ∧
          r'.location = r.location ∧ r'.food_type = r.food_type ∧
          r'.meal_type = r.meal_type))
      db.food_listings (update_food_listing_quantity db X q).food_listings := by
  refine ⟨rfl, rfl, rfl, ?_⟩
  unfold update_food_listing_quantity
  simp only []
  rw [List.forall₂_map_right_iff]
  apply List.forall₂_same.mpr
  intro r _
  constructor
  · intro hne
    simp [hne]
  · intro heq
    simp [heq]

/-- C9 witness: the frame theorem applied to the sample database at
food_id 1 and quantity 3. -/
theorem C9_update_frame_witness :
    (1 : Int) ∈ (sampleDb.food_listings.map (·.food_id)) ∧
    ((update_food_listing_quantity sampleDb 1 3).providers = sampleDb.providers ∧
      (update_food_listing_quantity sampleDb 1 3).receivers = sampleDb.receivers ∧
      (update_food_listing_quantity sampleDb 1 3).claims = sampleDb.claims ∧
      List.Forall₂ (fun r r' =>
          (r.food_id ≠ 1 → r' = r) ∧
          (r.food_id = 1 → r'.food_id = r.food_id ∧ r'.quantity = 3 ∧
            r'.food_name = r.food_name ∧ r'.expiry_date = r.expiry_date ∧
            r'.provider_id = r.provider_id ∧ r'.provider_type = r.provider_type ∧
            r'.location = r.location ∧ r'.food_type = r.food_type ∧
            r'.meal_type = r.meal_type))
        sampleDb.food_listings
        (update_food_listing_quantity sampleDb 1 3).food_listings) :=
  ⟨by decide, C9_update_frame sampleDb 1 3 (by decide)⟩

/-- C7 counterexample: on the empty database each of the four "most/highest"
catalog queries returns zero rows — not exactly one row as claimed —
because `GROUP BY` over an empty row set produces no groups and `LIMIT 1`
of nothing is nothing. -/
theorem C7_counterexample :
    providerTypeMostFood emptyDb = [] ∧
    cityMostListings emptyDb = [] ∧
    providerMostCompletedClaims emptyDb = [] ∧
    mostClaimedMealType emptyDb = [] := by
  refine ⟨?_, ?_, ?_, ?_⟩ <;>
    simp [providerTypeMostFood, cityMostListings, providerMostCompletedClaims,
      mostClaimedMealType, topOne, providerTypeTotals, cityListingCounts,
      providerCompletedCounts, mealTypeClaimCounts, completedClaimProviderNames,
      claimedMealTypes, emptyDb]

/-- Running `ORDER BY ... DESC LIMIT 1` over an empty group list yields no
rows. -/
theorem topOne_of_nil {α β : Type _} [LinearOrder β] :
    topOne ([] : List (α × β)) = [] := by
  simp [topOne]

/-- C7 amended: for every database state and for each of the four
"most/highest" catalog queries ("Provider type contributing most food",
"City with highest number of food listings", "Provider with highest number
of successful food claims", "Most claimed meal type") separately: whenever
that query's grouped row set is non-empty, the query returns exactly one
row whose aggregate value is greater than or equal to the aggregate of
every other group; and whenever that query's grouped row set is empty, the
query returns zero rows. -/
theorem C7_top_queries (db : Database) :
    ((providerTypeTotals db ≠ [] →
        ∃ x, providerTypeMostFood db = [x] ∧ x ∈ providerTypeTotals db ∧
          ∀ y ∈ providerTypeTotals db, y.2 ≤ x.2) ∧
      (providerTypeTotals db = [] → providerTypeMostFood db = [])) ∧
    ((cityListingCounts db ≠ [] →
        ∃ x, cityMostListings db = [x] ∧ x ∈ cityListingCounts db ∧
          ∀ y ∈ cityListingCounts db, y.2 ≤ x.2) ∧
      (cityListingCounts db = [] → cityMostListings db = [])) ∧
    ((providerCompletedCounts db ≠ [] →
        ∃ x, providerMostCompletedClaims db = [x] ∧
          x ∈ providerCompletedCounts db ∧
          ∀ y ∈ providerCompletedCounts db, y.2 ≤ x.2) ∧
      (providerCompletedCounts db = [] → providerMostCompletedClaims db = [])) ∧
    ((mealTypeClaimCounts db ≠ [] →
        ∃ x, mostClaimedMealType db = [x] ∧ x ∈ mealTypeClaimCounts db ∧
          ∀ y ∈ mealTypeClaimCounts db, y.2 ≤ x.2) ∧
      (mealTypeClaimCounts db = [] → mostClaimedMealType db = [])) :=
  ⟨⟨fun h => topOne_spec _ h,
      fun h => by rw [providerTypeMostFood, h]; exact topOne_of_nil⟩,
    ⟨fun h => topOne_spec _ h,
      fun h => by rw [cityMostListings, h]; exact topOne_of_nil⟩,
    ⟨fun h => topOne_spec _ h,
      fun h => by rw [providerMostCompletedClaims, h]; exact topOne_of_nil⟩,
    ⟨fun h => topOne_spec _ h,
      fun h => by rw [mostClaimedMealType, h]; exact topOne_of_nil⟩⟩

/-- C7 witness: the top-query theorem applied on the rich sample database
(all four grouped row sets non-empty) and on a database with a listing but
no claims (the two claim-based grouped row sets empty). -/
theorem C7_top_queries_witness :
    ((providerTypeTotals richDb ≠ [] ∧ cityListingCounts richDb ≠ [] ∧
        providerCompletedCounts richDb ≠ [] ∧ mealTypeClaimCounts richDb ≠ []) ∧
      (∃ x, providerTypeMostFood richDb = [x] ∧ x ∈ providerTypeTotals richDb ∧
        ∀ y ∈ providerTypeTotals richDb, y.2 ≤ x.2) ∧
      (∃ x, cityMostListings richDb = [x] ∧ x ∈ cityListingCounts richDb ∧
        ∀ y ∈ cityListingCounts richDb, y.2 ≤ x.2) ∧
      (∃ x, providerMostCompletedClaims richDb = [x] ∧
        x ∈ providerCompletedCounts richDb ∧
        ∀ y ∈ providerCompletedCounts richDb, y.2 ≤ x.2) ∧
      (∃ x, mostClaimedMealType richDb = [x] ∧ x ∈ mealTypeClaimCounts richDb ∧
        ∀ y ∈ mealTypeClaimCounts richDb, y.2 ≤ x.2)) ∧
    ((providerCompletedCounts sampleDb = [] ∧ mealTypeClaimCounts sampleDb = []) ∧
      providerMostCompletedClaims sampleDb = [] ∧
      mostClaimedMealType sampleDb = []) :=
  ⟨⟨⟨by decide, by decide, by decide, by decide⟩,
      (C7_top_queries richDb).1.1 (by decide),
      (C7_top_queries richDb).2.1.1 (by decide),
      (C7_top_queries richDb).2.2.1.1 (by decide),
      (C7_top_queries richDb).2.2.2.1 (by decide)⟩,
    ⟨by decide, by decide⟩,
      (C7_top_queries sampleDb).2.2.1.2 (by decide),
      (C7_top_queries sampleDb).2.2.2.2 (by decide)⟩

/-- C8: against a non-empty database, "Most commonly available food types"
returns rows of exactly the columns `food_type` and `count`
(`FoodTypeCountRow`), one row per distinct food_type of `food_listings`
(the row labels are a permutation of the distinct food types), each row's
`count` being the number of listings of that type, ordered descending by
`count`, and the result is non-empty. -/
theorem C8_most_common_food_types (db : Database) (h : db.food_listings ≠ []) :
    ((mostCommonFoodTypes db).map (·.food_type)).Perm
        (db.food_listings.map (·.food_type)).dedup ∧
    (∀ row ∈ mostCommonFoodTypes db,
        row.count = (db.food_listings.map (·.food_type)).count row.food_type) ∧
    (mostCommonFoodTypes db).Sorted (fun a b => b.count ≤ a.count) ∧
    mostCommonFoodTypes db ≠ [] := by
  have hperm := List.mergeSort_perm (foodTypeCountRows db)
    (fun a b => decide (b.count ≤ a.count))
  refine ⟨?_, ?_, ?_, ?_⟩
  · refine (hperm.map (·.food_type)).trans ?_
    rw [foodTypeCountRows, List.map_map]
    have hco : ((·.food_type) ∘ fun t =>
        FoodTypeCountRow.mk t ((db.food_listings.map (·.food_type)).count t)) = id := rfl
    rw [hco, List.map_id]
  · intro row hrow
    have hmem : row ∈ foodTypeCountRows db := hperm.mem_iff.mp hrow
    rw [foodTypeCountRows, List.mem_map] at hmem
    obtain ⟨t, _, rfl⟩ := hmem
    rfl
  · have hs := @List.sorted_mergeSort FoodTypeCountRow
      (fun a b => decide (b.count ≤ a.count))
      (fun a b c hab hbc => by
        simp only [decide_eq_true_eq] at *
        exact le_trans hbc hab)
      (fun a b => by rcases Nat.le_total a.count b.count with hh | hh <;> simp [hh])
      (foodTypeCountRows db)
    exact hs.imp fun hab => by simpa using hab
  · intro hnil
    have hmr : (foodTypeCountRows db).mergeSort
        (fun a b => decide (b.count ≤ a.count)) = [] := hnil
    rw [hmr] at hperm
    have hfe : foodTypeCountRows db = [] := hperm.symm.eq_nil
    rw [foodTypeCountRows, List.map_eq_nil_iff, List.dedup_eq_nil,
      List.map_eq_nil_iff] at hfe
    exact h hfe

/-- Running `filterMap id` over a list of `some`-values recovers the
underlying values. -/
theorem filterMap_id_map_some {α : Type _} (l : List α) (f : α → Int) :
    ((l.map fun a => (some (f a) : Option Int)).filterMap id) = l.map f := by
  induction l with
  | nil => rfl
  | cons a t ih => simp [ih]

/-- Running `filterMap id` over a list of `none`-values yields nothing. -/
theorem filterMap_id_map_none {α : Type _} (l : List α) :
    ((l.map fun x => (none : Option Int)).filterMap id) = [] := by
  induction l with
  | nil => rfl
  | cons a t ih => simpa using ih

/-- Filtering the UNION ALL of providers and receivers to one city splits
into the city's providers followed by the city's receivers. -/
theorem combined_filter_city (db : Database) (c : String) :
    ((combinedCityRows db).filter fun x => x.1 = c) =
      ((db.providers.filter fun p => p.city = c).map fun p =>
        (p.city, some p.provider_id, (none : Option Int))) ++
      ((db.receivers.filter fun r => r.city = c).map fun r =>
        (r.city, (none : Option Int), some r.receiver_id)) := by
  rw [combinedCityRows, List.filter_append, List.filter_map, List.filter_map]
  rfl

/-- The distinct non-NULL provider_ids among a city's combined rows are
exactly the distinct provider_ids of the city's providers. -/
theorem countDistinct_city_providers (db : Database) (c : String) :
    countDistinct (((combinedCityRows db).filter fun x => x.1 = c).map (·.2.1))
      = ((db.providers.filter fun p => p.city = c).map
          (·.provider_id)).dedup.length := by
  rw [countDistinct, combined_filter_city, List.map_append, List.map_map,
    List.map_map, List.filterMap_append]
  have h1 : (((db.providers.filter fun p => p.city = c).map
      ((·.2.1) ∘ fun p => (p.city, some p.provider_id,
        (none : Option Int)))).filterMap id)
      = (db.providers.filter fun p => p.city = c).map (·.provider_id) :=
    filterMap_id_map_some _ _
  have h2 : (((db.receivers.filter fun r => r.city = c).map
      ((·.2.1) ∘ fun r => (r.city, (none : Option Int),
        some r.receiver_id))).filterMap id) = [] :=
    filterMap_id_map_none _
  rw [h1, h2, List.append_nil]

/-- The distinct non-NULL receiver_ids among a city's combined rows are
exactly the distinct receiver_ids of the city's receivers. -/
theorem countDistinct_city_receivers (db : Database) (c : String) :
    countDistinct (((combinedCityRows db).filter fun x => x.1 = c).map (·.2.2))
      = ((db.receivers.filter fun r => r.city = c).map
          (·.receiver_id)).dedup.length := by
  rw [countDistinct, combined_filter_city, List.map_append, List.map_map,
    List.map_map, List.filterMap_append]
  have h1 : (((db.providers.filter fun p => p.city = c).map
      ((·.2.2) ∘ fun p => (p.city, some p.provider_id,
        (none : Option Int)))).filterMap id) = [] :=
    filterMap_id_map_none _
  have h2 : (((db.receivers.filter fun r => r.city = c).map
      ((·.2.2) ∘ fun r => (r.city, (none : Option Int),
        some r.receiver_id))).filterMap id)
      = (db.receivers.filter fun r => r.city = c).map (·.receiver_id) :=
    filterMap_id_map_some _ _
  rw [h1, h2, List.nil_append]

/-- C6: for every contents of the providers and receivers tables, the
"Providers & Receivers per City" query returns exactly one row per city
that has at least one provider or at least one receiver (the row labels
are duplicate-free, and a city appears iff some provider or receiver is
located there), with `total_providers` the number of distinct provider_ids
in that city and `total_receivers` the number of distinct receiver_ids in
that city; a city with only receivers shows zero providers and vice
versa. -/
theorem C6_providers_receivers_per_city (db : Database) :
    ((providersReceiversPerCity db).map (·.1)).Nodup ∧
    (∀ c : String,
      (∃ row ∈ providersReceiversPerCity db, row.1 = c) ↔
        ((∃ p ∈ db.providers, p.city = c) ∨ (∃ r ∈ db.receivers, r.city = c))) ∧
    (∀ row ∈ providersReceiversPerCity db,
      row.2.1 = ((db.providers.filter fun p => p.city = row.1).map
        (·.provider_id)).dedup.length ∧
      row.2.2 = ((db.receivers.filter fun r => r.city = row.1).map
        (·.receiver_id)).dedup.length) := by
  refine ⟨?_, ?_, ?_⟩
  · rw [providersReceiversPerCity, List.map_map]
    have hcomp : ((·.1) ∘ fun c =>
        (c, countDistinct (((combinedCityRows db).filter fun x => x.1 = c).map
            (·.2.1)),
          countDistinct (((combinedCityRows db).filter fun x => x.1 = c).map
            (·.2.2)))) = (id : String → String) := rfl
    rw [hcomp, List.map_id]
    exact List.nodup_dedup _
  · intro c
    constructor
    · rintro ⟨row, hrow, rfl⟩
      rw [providersReceiversPerCity, List.mem_map] at hrow
      obtain ⟨c', hc', rfl⟩ := hrow
      have hc'' : c' ∈ (combinedCityRows db).map (·.1) := List.mem_dedup.mp hc'
      rw [List.mem_map] at hc''
      obtain ⟨x, hx, hx1⟩ := hc''
      rw [combinedCityRows, List.mem_append] at hx
      rcases hx with hx | hx
      · rw [List.mem_map] at hx
        obtain ⟨p, hp, rfl⟩ := hx
        exact Or.inl ⟨p, hp, hx1⟩
      · rw [List.mem_map] at hx
        obtain ⟨r, hr, rfl⟩ := hx
        exact Or.inr ⟨r, hr, hx1⟩
    · intro hc
      have hcin : c ∈ ((combinedCityRows db).map (·.1)).dedup := by
        rw [List.mem_dedup, List.mem_map]
        rcases hc with ⟨p, hp, hpc⟩ | ⟨r, hr, hrc⟩
        · refine ⟨(p.city, some p.provider_id, none), ?_, hpc⟩
          rw [combinedCityRows, List.mem_append]
          exact Or.inl (List.mem_map.mpr ⟨p, hp, rfl⟩)
        · refine ⟨(r.city, none, some r.receiver_id), ?_, hrc⟩
          rw [combinedCityRows, List.mem_append]
          exact Or.inr (List.mem_map.mpr ⟨r, hr, rfl⟩)
      exact ⟨(c,
        countDistinct (((combinedCityRows db).filter fun x => x.1 = c).map
          (·.2.1)),
        countDistinct (((combinedCityRows db).filter fun x => x.1 = c).map
          (·.2.2))),
        by rw [providersReceiversPerCity]; exact List.mem_map.mpr ⟨c, hcin, rfl⟩,
        rfl⟩
  · intro row hrow
    rw [providersReceiversPerCity, List.mem_map] at hrow
    obtain ⟨c, _, rfl⟩ := hrow
    exact ⟨countDistinct_city_providers db c, countDistinct_city_receivers db c⟩

/-- C8 witness: the food-types theorem applied to the rich sample
database. -/
theorem C8_most_common_food_types_witness :
    richDb.food_listings ≠ [] ∧
    (((mostCommonFoodTypes richDb).map (·.food_type)).Perm
        (richDb.food_listings.map (·.food_type)).dedup ∧
      (∀ row ∈ mostCommonFoodTypes richDb,
        row.count = (richDb.food_listings.map (·.food_type)).count row.food_type) ∧
      (mostCommonFoodTypes richDb).Sorted (fun a b => b.count ≤ a.count) ∧
      mostCommonFoodTypes richDb ≠ []) :=
  ⟨by decide, C8_most_common_food_types richDb (by decide)⟩

/-- C10: for every catalog label, executing the catalog entry's SQL via
`run_query` leaves the entire database state unchanged (each entry is one
SELECT statement); and the entry "Contact info of providers in a specific
city " takes no city parameter (it is a function of the database alone),
reads nothing but the providers table (its result depends only on that
table), and returns exactly the name and contact of providers whose city
equals the fixed constant 'Mooreview'. -/
theorem C10_read_only_catalog (db : Database) :
    (∀ label ∈ QUERIES_labels, runQueryPost label db = db) ∧
    (∀ db2 : Database, db2.providers = db.providers →
      contactInfoProvidersSpecificCity db2
        = contactInfoProvidersSpecificCity db) ∧
    (∀ x ∈ contactInfoProvidersSpecificCity db,
      ∃ p ∈ db.providers, p.city = "Mooreview" ∧ x = (p.name, p.contact)) := by
  refine ⟨?_, ?_, ?_⟩
  · intro label hl
    fin_cases hl <;> rfl
  · intro db2 h2
    rw [contactInfoProvidersSpecificCity, contactInfoProvidersSpecificCity, h2]
  · intro x hx
    rw [contactInfoProvidersSpecificCity, List.mem_map] at hx
    obtain ⟨p, hp, rfl⟩ := hx
    rw [List.mem_filter] at hp
    exact ⟨p, hp.1, by simpa using hp.2, rfl⟩

/-- C10 witness: the read-only theorem applied to the rich sample database
and the label "Total quantity of food available". -/
theorem C10_read_only_catalog_witness :
    ("Total quantity of food available" ∈ QUERIES_labels ∧
      richDb.providers = richDb.providers) ∧
    (runQueryPost "Total quantity of food available" richDb = richDb ∧
      contactInfoProvidersSpecificCity richDb
        = contactInfoProvidersSpecificCity richDb) :=
  ⟨⟨by decide, rfl⟩,
    (C10_read_only_catalog richDb).1 "Total quantity of food available"
      (by decide),
    (C10_read_only_catalog richDb).2.1 richDb rfl⟩

end FoodApp
